import Mathlib

/-
Verification development for the smarttimers repository.

The repository holds two package variants of the same Clock abstraction:
smarttimers/timer.py (current) and smarttimer/timer.py (older variant),
plus a test file for the SmartTimer interval tracker. Definitions below are
shallow embeddings of the Python source. Machine floats are modelled as
exact rationals, so float rounding is outside the model. Python dynamic
typing is modelled with small tagged unions where a claim depends on it.
Namespace ST holds the smarttimers variant, namespace Old the smarttimer
variant. The SmartTimer tracker class itself is not part of src, so it is
modelled from the specification text, refined by the test file in src which
pins its observable behavior.
-/

/-- Kinds of exceptions raised by the code: TypeError, ValueError, KeyError,
TimerError or StateError, and TimerCompatibilityError. -/
inductive ErrKind where
  | typeError
  | valueError
  | keyError
  | stateError
  | compatibilityError
  deriving DecidableEq

/-- Metadata namespace returned by time.get_clock_info for a queryable
clock name: adjustable, implementation, monotonic, resolution. -/
structure ClockInfo where
  adjustable : Bool
  implementation : String
  monotonic : Bool
  resolution : Rat
  deriving DecidableEq

/-- Embedding of time.get_clock_info on CPython for Linux: the queryable
names and their metadata; any other argument raises, modelled as none. -/
def getClockInfo : String → Option ClockInfo
  | "monotonic" => some ⟨false, "clock_gettime(CLOCK_MONOTONIC)", true, 1/1000000000⟩
  | "perf_counter" => some ⟨false, "clock_gettime(CLOCK_MONOTONIC)", true, 1/1000000000⟩
  | "process_time" => some ⟨false, "clock_gettime(CLOCK_PROCESS_CPUTIME_ID)", true, 1/1000000000⟩
  | "time" => some ⟨true, "clock_gettime(CLOCK_REALTIME)", false, 1/1000000000⟩
  | "thread_time" => some ⟨false, "clock_gettime(CLOCK_THREAD_CPUTIME_ID)", true, 1/1000000000⟩
  | _ => none

/-- Default registry contents of Timer.CLOCKS in both variants: clock name
mapped to the identity of the bound timing function. Function objects are
modelled by distinct identity tokens, since the fallback compatibility test
in the source compares functions with the Python is operator. -/
def defaultClocks : List (String × String) :=
  [("perf_counter", "time.perf_counter"),
   ("process_time", "time.process_time"),
   ("clock", "time.clock"),
   ("monotonic", "time.monotonic"),
   ("time", "time.time")]

/-- Lookup of a clock name in the default CLOCKS registry. -/
def lookupClock (n : String) : Option String :=
  (defaultClocks.find? (fun p => p.1 == n)).map (fun p => p.2)

/-- Default clock name of both variants. -/
def DEFAULT_CLOCK_NAME : String := "perf_counter"

/-- Embedding of the Timer instance state shared by both variants: label
(named id in the old variant), recorded fractional seconds and minutes, and
the bound clock name. The bound function attribute is determined by
clock_name through the registry and is not duplicated here. -/
structure Timer where
  label : String
  seconds : Rat
  minutes : Rat
  clock_name : String
  deriving DecidableEq

/-- Dynamic Python value passed to Timer methods that inspect types with
isinstance: a Timer instance, a string, an int, or any other object. -/
inductive PyVal where
  | timer (t : Timer)
  | str (s : String)
  | int (n : Int)
  | otherObj
  deriving DecidableEq

/-- Embedding of Timer.is_compatible, identical logic in both variants:
returns False when the argument is not a Timer instance; otherwise compares
the get_clock_info metadata of the two clock names, falling back to
identity of the registered timing functions when either name is not
queryable. -/
def isCompatible (a : Timer) (v : PyVal) : Bool :=
  match v with
  | .timer b =>
      match getClockInfo a.clock_name, getClockInfo b.clock_name with
      | some ia, some ib => decide (ia = ib)
      | _, _ => decide (lookupClock a.clock_name = lookupClock b.clock_name)
  | _ => false

/-- Embedding of ST Timer private method set_time: rejects negative seconds
with a ValueError and otherwise stores seconds together with the derived
minutes. The numeric type check of the source is absorbed by the Rat input
type. The old variant performs the same checks at construction instead. -/
def setTimeChecked (t : Timer) (s : Rat) : Except ErrKind Timer :=
  if s < 0 then .error .valueError
  else .ok { t with seconds := s, minutes := s / 60 }

/-- Embedding of Timer.clear in both variants: set the time values to zero
through set_time, leaving label and clock name unchanged. -/
def Timer.clear (t : Timer) : Timer :=
  { t with seconds := 0, minutes := 0 }

/-- Resolution of a clock name at the setter: an empty string resolves to
the default clock name. -/
def resolveName (n : String) : String :=
  if n = "" then DEFAULT_CLOCK_NAME else n

/-- Embedding of the clock_name property setter of both variants for an
already initialized instance, where hasattr of the sentinel attribute is
true. The source calls is_compatible with the new name, a string, then
clears the time when the result is False, resolves an empty name to the
default, and rebinds the timing function by indexing CLOCKS, which raises a
KeyError for an unregistered name. The string type check of the source is
absorbed by the String input type. -/
def Timer.setClockName (t : Timer) (name : String) : Except ErrKind Timer :=
  let t1 := if isCompatible t (.str name) then t else t.clear
  let resolved := resolveName name
  match lookupClock resolved with
  | some _ => .ok { t1 with clock_name := resolved }
  | none => .error .keyError

/-- Embedding of ST Timer construction without the timer keyword: store the
label, set the time through set_time, then set the clock name on the first
pass where the sentinel attribute is absent, so no clearing occurs. -/
def Timer.init (label : String) (seconds : Rat) (clock_name : String) :
    Except ErrKind Timer := do
  let t1 ← setTimeChecked ⟨label, 0, 0, ""⟩ seconds
  let resolved := resolveName clock_name
  match lookupClock resolved with
  | some _ => .ok { t1 with clock_name := resolved }
  | none => .error .keyError

/-- Embedding of Timer construction from the timer keyword argument in both
variants: copy seconds through set_time, then set the clock name of the
source on the first pass; the label attribute receives the explicit label
argument, not the label of the source. -/
def Timer.initFromTimer (label : String) (src : Timer) : Except ErrKind Timer := do
  let t1 ← setTimeChecked ⟨label, 0, 0, ""⟩ src.seconds
  let resolved := resolveName src.clock_name
  match lookupClock resolved with
  | some _ => .ok { t1 with clock_name := resolved }
  | none => .error .keyError

/-- Embedding of the label combination used by the arithmetic operators:
join with the separator after filtering out empty labels. -/
def joinFiltered (sep a b : String) : String :=
  if a = "" then b else if b = "" then a else a ++ sep ++ b

namespace ST

/-- Embedding of the ST variant addition operator: raise a
TimerCompatibilityError unless is_compatible holds, in which case the
argument is necessarily a Timer; build the result through the constructor
with the joined label, the sum of seconds, and the left clock name. -/
def addOp (a : Timer) (v : PyVal) : Except ErrKind Timer :=
  match v with
  | .timer b =>
      if isCompatible a (.timer b) then
        Timer.init (joinFiltered "+" a.label b.label) (a.seconds + b.seconds) a.clock_name
      else .error .compatibilityError
  | _ => .error .compatibilityError

/-- Embedding of the ST variant subtraction operator: raise a
TimerCompatibilityError unless compatible; build the result with the joined
label, the absolute difference of seconds, and the left clock name. -/
def subOp (a : Timer) (v : PyVal) : Except ErrKind Timer :=
  match v with
  | .timer b =>
      if isCompatible a (.timer b) then
        Timer.init (joinFiltered "-" a.label b.label) |a.seconds - b.seconds| a.clock_name
      else .error .compatibilityError
  | _ => .error .compatibilityError

/-- Embedding of the ST variant equality operator: it returns False when
the operands are not compatible instead of raising, as the source comment
explains for index searches, and otherwise compares the seconds. It is a
total Bool valued function, so it never raises. -/
def eqOp (a : Timer) (v : PyVal) : Bool :=
  if isCompatible a v then
    match v with
    | .timer b => decide (a.seconds = b.seconds)
    | _ => false
  else false

/-- Embedding of the ST variant less than operator: raise a
TimerCompatibilityError unless compatible, else compare seconds. -/
def ltOp (a : Timer) (v : PyVal) : Except ErrKind Bool :=
  match v with
  | .timer b =>
      if isCompatible a (.timer b) then .ok (decide (a.seconds < b.seconds))
      else .error .compatibilityError
  | _ => .error .compatibilityError

/-- Embedding of the ST variant less or equal operator, defined in the
source as the disjunction of the less than and equality operators; the
less than operator is evaluated first and its exception propagates. -/
def leOp (a : Timer) (v : PyVal) : Except ErrKind Bool := do
  let l ← ltOp a v
  pure (l || eqOp a v)

/-- Embedding of the ST variant greater than operator, the negation of the
less or equal operator with exception propagation. -/
def gtOp (a : Timer) (v : PyVal) : Except ErrKind Bool := do
  let l ← leOp a v
  pure (!l)

/-- Embedding of the ST variant greater or equal operator, the negation of
the less than operator with exception propagation. -/
def geOp (a : Timer) (v : PyVal) : Except ErrKind Bool := do
  let l ← ltOp a v
  pure (!l)

/-- Embedding of ST Timer.time with the clock reading passed explicitly:
the reading is stored through set_time, which raises on a negative value. -/
def timeOp (t : Timer) (reading : Rat) : Except ErrKind Timer :=
  setTimeChecked t reading

/-- Embedding of ST Timer.reset: empty the label, set the clock name to the
default through the property setter, then clear the time values. -/
def resetOp (t : Timer) : Except ErrKind Timer := do
  let t1 ← Timer.setClockName { t with label := "" } DEFAULT_CLOCK_NAME
  pure t1.clear

end ST

namespace Old

/-- Embedding of the old variant equality operator: unlike the ST variant
it raises a TimerCompatibilityError when the operands are not compatible. -/
def eqOp (a : Timer) (v : PyVal) : Except ErrKind Bool :=
  match v with
  | .timer b =>
      if isCompatible a (.timer b) then .ok (decide (a.seconds = b.seconds))
      else .error .compatibilityError
  | _ => .error .compatibilityError

/-- Embedding of the old variant less than operator, identical to the ST
variant. -/
def ltOp (a : Timer) (v : PyVal) : Except ErrKind Bool :=
  match v with
  | .timer b =>
      if isCompatible a (.timer b) then .ok (decide (a.seconds < b.seconds))
      else .error .compatibilityError
  | _ => .error .compatibilityError

/-- Embedding of the old variant less or equal operator: disjunction of the
less than operator and the raising equality operator. -/
def leOp (a : Timer) (v : PyVal) : Except ErrKind Bool := do
  let l ← ltOp a v
  if l then pure true
  else do
    let e ← eqOp a v
    pure e

/-- Embedding of the old variant greater than operator. -/
def gtOp (a : Timer) (v : PyVal) : Except ErrKind Bool := do
  let l ← leOp a v
  pure (!l)

/-- Embedding of the old variant greater or equal operator. -/
def geOp (a : Timer) (v : PyVal) : Except ErrKind Bool := do
  let l ← ltOp a v
  pure (!l)

/-- Embedding of the old variant addition operator, identical in behavior
to the ST variant. -/
def addOp (a : Timer) (v : PyVal) : Except ErrKind Timer :=
  match v with
  | .timer b =>
      if isCompatible a (.timer b) then
        Timer.init (joinFiltered "+" a.label b.label) (a.seconds + b.seconds) a.clock_name
      else .error .compatibilityError
  | _ => .error .compatibilityError

/-- Embedding of the old variant subtraction operator, identical in
behavior to the ST variant. -/
def subOp (a : Timer) (v : PyVal) : Except ErrKind Timer :=
  match v with
  | .timer b =>
      if isCompatible a (.timer b) then
        Timer.init (joinFiltered "-" a.label b.label) |a.seconds - b.seconds| a.clock_name
      else .error .compatibilityError
  | _ => .error .compatibilityError

/-- Embedding of the old variant construction: the type and sign checks on
seconds are performed in the constructor itself and the unchecked private
set_time stores the value; observable behavior matches the ST constructor. -/
def init (label : String) (seconds : Rat) (clock_name : String) :
    Except ErrKind Timer :=
  if seconds < 0 then .error .valueError
  else
    let resolved := resolveName clock_name
    match lookupClock resolved with
    | some _ => .ok ⟨label, seconds, seconds / 60, resolved⟩
    | none => .error .keyError

/-- Embedding of the old variant Timer.time with the reading passed
explicitly: the old private set_time performs no checks, so any reading is
stored together with the derived minutes. -/
def timeOp (t : Timer) (reading : Rat) : Timer :=
  { t with seconds := reading, minutes := reading / 60 }

end Old

/-- Dynamic Python value used as a TimerDict key or value: a callable
function object with an identity token, an int, or a string. -/
inductive Py where
  | func (id : String)
  | int (n : Int)
  | str (s : String)
  deriving DecidableEq

/-- Truth of the Python callable test on the modelled values. -/
def Py.isCallable : Py → Bool
  | .func _ => true
  | _ => false

/-- Model of a Python dict as an association list with unique keys in
insertion order. -/
abbrev TDict := List (Py × Py)

/-- Plain dict item assignment: overwrite the entry of an existing key in
place, otherwise append the new entry. -/
def assocSet (d : TDict) (k v : Py) : TDict :=
  match d with
  | [] => [(k, v)]
  | (k1, v1) :: rest => if k1 = k then (k, v) :: rest else (k1, v1) :: assocSet rest k v

/-- Plain dict key lookup returning the stored value when present. -/
def dictFind (d : TDict) (k : Py) : Option Py :=
  (d.find? (fun p => p.1 == k)).map (fun p => p.2)

/-- Truth of dict key membership. -/
def keyMem (d : TDict) (k : Py) : Bool :=
  d.any (fun p => p.1 == k)

namespace ST

/-- Embedding of the ST variant TimerDict item assignment: a non string key
raises a KeyError, an empty string key raises a KeyError, a non callable
value raises a ValueError, and otherwise the entry is stored, overwriting
an existing key. -/
def setItem (d : TDict) (k v : Py) : Except ErrKind TDict :=
  match k with
  | .str s =>
      if s = "" then .error .keyError
      else if v.isCallable then .ok (assocSet d (.str s) v)
      else .error .valueError
  | _ => .error .keyError

/-- Embedding of the ST variant TimerDict.update: the items of the given
dict are assigned one by one through item assignment, so every item is
validated. The dict type check on the argument is absorbed by the input
type. -/
def updateItems (d : TDict) (items : List (Py × Py)) : Except ErrKind TDict :=
  match items with
  | [] => .ok d
  | (k, v) :: rest => do
      let d1 ← setItem d k v
      updateItems d1 rest

/-- Embedding of Timer.unregister_clock in the ST variant: the key is first
looked up with plain dict indexing, raising a KeyError when absent, then
the entry is deleted. -/
def unregisterClock (d : TDict) (k : Py) : Except ErrKind TDict :=
  if keyMem d k then .ok (d.filter (fun p => p.1 != k)) else .error .keyError

end ST

namespace Old

/-- Embedding of the old variant TimerDict item assignment: a non string
key raises a TimerKeyError and a non callable value raises a
TimerValueError, but an empty string key passes the checks and is stored. -/
def setItem (d : TDict) (k v : Py) : Except ErrKind TDict :=
  match k with
  | .str s =>
      if v.isCallable then .ok (assocSet d (.str s) v)
      else .error .valueError
  | _ => .error .keyError

/-- Embedding of the old variant TimerDict.update: after the dict type
check on the argument it delegates to the builtin dict update, merging
every item without any per item validation. -/
def updateRaw (d : TDict) (items : List (Py × Py)) : TDict :=
  match items with
  | [] => d
  | (k, v) :: rest => updateRaw (assocSet d k v) rest

end Old

/-- Truth of the well formedness of one registry entry: the key is a non
empty string and the value is callable. -/
def entryOk (p : Py × Py) : Bool :=
  (match p.1 with
   | .str s => !(s == "")
   | _ => false) && p.2.isCallable

/-- Truth of the registry invariant stated by the specification: every key
is a non empty string and every value is callable. -/
def registryInvB (d : TDict) : Bool :=
  d.all entryOk

/-- Record of one completed interval measurement: label and fractional
seconds; minutes are derived as seconds over sixty. -/
structure IntervalRecord where
  label : String
  seconds : Rat
  deriving DecidableEq

/-- Default tracker instance name, from the test file in src. -/
def DEFAULT_TRACKER_NAME : String := "smarttimer"

/-- Modelled from the spec: the SmartTimer interval tracker state. The
SmartTimer class is code of this repository missing from src, so it is
modelled from specification sections 3, 4.2, 4.3 and 8, refined by the
test file in src, which pins the observable behavior: the exposed record
sequence is kept in opening order with cascade records appended at close
time, since the nested scheme test equates walltime with the record at
index zero, the outer label ticced first and tocced last. Completed
records carry the tic sequence number as sort key; pending stack entries
carry label, tic sequence number, and the clock reading at open time.
Fields firstTic and lastToc retain the first open reading and the most
recent close reading; origin is the reading at creation, the anchor used
before any open occurs. -/
structure SmartTimer where
  name : String
  records : List (Nat × IntervalRecord)
  stack : List (String × Nat × Rat)
  firstTic : Option Rat
  lastToc : Option Rat
  origin : Rat
  clock_name : String
  nextSeq : Nat
  deriving DecidableEq

/-- Modelled from the spec: tracker creation with a given name and the
clock reading at creation; created empty with the default clock name. -/
def SmartTimer.create (name : String) (now : Rat) : SmartTimer :=
  ⟨name, [], [], none, none, now, DEFAULT_CLOCK_NAME, 0⟩

/-- Modelled from the spec: tic pushes the label onto the pending stack
unconditionally together with the current clock reading, and retains the
reading of the first tic. -/
def SmartTimer.tic (st : SmartTimer) (label : String) (now : Rat) : SmartTimer :=
  { st with
    stack := (label, st.nextSeq, now) :: st.stack,
    nextSeq := st.nextSeq + 1,
    firstTic := match st.firstTic with | none => some now | some t => some t }

/-- Insertion of a completed record into the sequence ordered by tic
sequence number. -/
def insertRec (l : List (Nat × IntervalRecord)) (seq : Nat) (r : IntervalRecord) :
    List (Nat × IntervalRecord) :=
  match l with
  | [] => [(seq, r)]
  | (s1, r1) :: rest =>
      if seq < s1 then (seq, r) :: (s1, r1) :: rest
      else (s1, r1) :: insertRec rest seq r

/-- Removal of the entry with the given label from the pending stack,
searching from the top, returning the removed entry and the remaining
stack with its order preserved. -/
def removeLabel (stk : List (String × Nat × Rat)) (lbl : String) :
    Option ((String × Nat × Rat) × List (String × Nat × Rat)) :=
  match stk with
  | [] => none
  | e :: rest =>
      if e.1 = lbl then some (e, rest)
      else
        match removeLabel rest lbl with
        | none => none
        | some (f, rest1) => some (f, e :: rest1)

/-- Dynamic argument of toc: omitted, a string label, or any non string
value. -/
inductive TocKey where
  | noKey
  | strKey (s : String)
  | badKey
  deriving DecidableEq

/-- Modelled from the spec: the toc matching algorithm of section 4.2,
refined by the tests in src. A non string key raises a TypeError. An
omitted key pops the stack top, raising a TimerError when the stack is
empty. A string key removes the matching entry wherever it sits in the
stack; when no entry matches and the stack is not empty a TimerKeyError is
raised, and when the stack is empty the close succeeds as a cascading
close whose span is anchored at the tracker start, the reading of the
first tic, matching the cascade scheme test which equates walltime with
the cascaded record. Every successful close completes exactly one record
and retains the reading of the most recent close. -/
def SmartTimer.toc (st : SmartTimer) (key : TocKey) (now : Rat) :
    Except ErrKind SmartTimer :=
  match key with
  | .badKey => .error .typeError
  | .noKey =>
      match st.stack with
      | [] => .error .stateError
      | (lbl, seq, start) :: rest =>
          .ok { st with stack := rest,
                        records := insertRec st.records seq ⟨lbl, now - start⟩,
                        lastToc := some now }
  | .strKey lbl =>
      match removeLabel st.stack lbl with
      | some ((l0, seq, start), rest) =>
          .ok { st with stack := rest,
                        records := insertRec st.records seq ⟨l0, now - start⟩,
                        lastToc := some now }
      | none =>
          match st.stack with
          | _ :: _ => .error .keyError
          | [] =>
              let anchor := match st.firstTic with | some t => t | none => st.origin
              .ok { st with records := insertRec st.records st.nextSeq ⟨lbl, now - anchor⟩,
                            nextSeq := st.nextSeq + 1,
                            lastToc := some now }

/-- Modelled from the spec: the exposed seconds property, the seconds of
the completed records in opening order. -/
def SmartTimer.secondsList (st : SmartTimer) : List Rat :=
  st.records.map (fun p => p.2.seconds)

/-- Modelled from the spec: the exposed labels property, the labels of the
completed records in opening order. -/
def SmartTimer.labelsList (st : SmartTimer) : List String :=
  st.records.map (fun p => p.2.label)

/-- Sum of the seconds of all completed records, the quantity named by the
specification sentence about walltime. -/
def SmartTimer.sumSeconds (st : SmartTimer) : Rat :=
  (SmartTimer.secondsList st).sum

/-- Modelled from the spec: walltime, refined by the tests in src. The
scheme tests equate walltime exactly with the full span record under the
nested scheme and with the cascaded record under the cascade scheme, and
only approximately with the sum of the records under the sequential
scheme, so walltime is the elapsed time between the tracker start, the
first tic reading, and the most recent toc reading; zero before any toc. -/
def SmartTimer.walltime (st : SmartTimer) : Rat :=
  match st.lastToc with
  | none => 0
  | some t => t - (match st.firstTic with | some f => f | none => st.origin)

/-- Modelled from the spec: tracker clear empties the completed records and
the pending stack while preserving the instance name and clock name. -/
def SmartTimer.clear (st : SmartTimer) : SmartTimer :=
  { st with records := [], stack := [], firstTic := none, lastToc := none,
            nextSeq := 0 }

/-- Modelled from the spec, refined by the reset test in src: tracker reset
empties like clear and restores the default instance name and the default
clock name. -/
def SmartTimer.reset (st : SmartTimer) : SmartTimer :=
  { st.clear with name := DEFAULT_TRACKER_NAME, clock_name := DEFAULT_CLOCK_NAME }

/-- Unlabeled toc with the error case defaulting to the unchanged state;
used to express straight line traces whose tocs are known to succeed. -/
def tocD (st : SmartTimer) (now : Rat) : SmartTimer :=
  match SmartTimer.toc st TocKey.noKey now with
  | .ok s => s
  | .error _ => st

/-- Run of a gap free sequential trace: for each pair of a label and a
duration, tic at the current time and toc exactly when the duration has
elapsed, with the next tic issued at the same reading. -/
def runSeq (st : SmartTimer) (t : Rat) : List (String × Rat) → SmartTimer
  | [] => st
  | (lbl, d) :: rest => runSeq (tocD (SmartTimer.tic st lbl t) (t + d)) (t + d) rest

/-- Truth of the Clock invariant stated by the specification: seconds is
non negative and minutes is seconds over sixty. -/
def TimerInv (t : Timer) : Prop :=
  0 ≤ t.seconds ∧ t.minutes = t.seconds / 60

deriving instance DecidableEq for Except

/-- Concrete run of the nested scheme test trace from src: tic A at zero,
tic B at one half, unlabeled toc at one closing B, unlabeled toc at three
halves closing A. -/
def nestedTrace : SmartTimer :=
  tocD (tocD (SmartTimer.tic (SmartTimer.tic
    (SmartTimer.create "smarttimer" 0) "A" 0) "B" (1/2)) 1) (3/2)

/-- Concrete run of the cascade scheme test trace from src: tic A at zero,
unlabeled toc at one half closing A, labeled toc B at one on the empty
stack. -/
def cascadeTrace : SmartTimer :=
  match SmartTimer.toc (tocD (SmartTimer.tic
      (SmartTimer.create "smarttimer" 0) "A" 0) (1/2)) (TocKey.strKey "B") 1 with
  | .ok s => s
  | .error _ => SmartTimer.create "error" 0

/-- Fresh tracker used by concrete toc instances. -/
def c2s0 : SmartTimer := SmartTimer.create "t" 0

/-- Tracker with one pending open label A, opened at reading zero. -/
def c2s1 : SmartTimer := SmartTimer.tic c2s0 "A" 0

/-- Tracker with pending open labels B above A. -/
def c2s2 : SmartTimer := SmartTimer.tic c2s1 "B" 2

/-- Concrete run of the reset test trace from src: a tracker created with
the name atimer, tic A at reading zero, unlabeled toc at reading one,
then reset. -/
def resetTrace : SmartTimer :=
  (tocD (SmartTimer.tic (SmartTimer.create "atimer" 0) "A" 0) 1).reset

/-- Concrete run of the clear test trace from src: the same tracker and
tic toc pair, then clear in place of reset. -/
def clearTrace : SmartTimer :=
  (tocD (SmartTimer.tic (SmartTimer.create "atimer" 0) "A" 0) 1).clear

theorem insertRec_append (l : List (Nat × IntervalRecord)) (seq : Nat)
    (r : IntervalRecord) (h : ∀ p ∈ l, p.1 < seq) :
    insertRec l seq r = l ++ [(seq, r)] := by
  induction l with
  | nil => rfl
  | cons hd tl ih =>
      have h1 : hd.1 < seq := h hd (List.mem_cons_self _ _)
      have h2 : ∀ p ∈ tl, p.1 < seq := fun p hp => h p (List.mem_cons_of_mem _ hp)
      obtain ⟨s1, r1⟩ := hd
      simp only [insertRec]
      rw [if_neg (by simp at h1; omega)]
      simp [ih h2]

theorem insertRec_length (l : List (Nat × IntervalRecord)) (seq : Nat)
    (r : IntervalRecord) : (insertRec l seq r).length = l.length + 1 := by
  induction l with
  | nil => rfl
  | cons hd tl ih =>
      obtain ⟨s1, r1⟩ := hd
      simp only [insertRec]
      by_cases hlt : seq < s1
      · simp [hlt]
      · simp [hlt, ih]

/-- C3. The specification claims that setting the clock name leaves the
recorded time unchanged when the new name is compatible with the previous
one, for instance the same name again. The code always zeroes the time:
the setter passes the new name, a string, to is_compatible, which returns
False for any argument that is not a Timer instance, so the clearing
branch is taken on every post initialization assignment, even for the
identical name. This contradicts the documentation of both variants,
which states that an instance is reset only when set to a new and
incompatible clock name, so the code is at fault. The theorem evaluates
the embedded setter at the failing input: a timer with five recorded
seconds whose clock name is set to the same name again ends with zero
seconds. The second conjunct records the always false compatibility test,
and the third shows the empty string resolving to the default name. -/
theorem C3_clock_name_always_clears :
    Timer.setClockName ⟨"x", 5, 5/60, "perf_counter"⟩ "perf_counter" =
      Except.ok ⟨"x", 0, 0, "perf_counter"⟩ ∧
    isCompatible ⟨"x", 5, 5/60, "perf_counter"⟩ (PyVal.str "perf_counter") = false ∧
    Timer.setClockName ⟨"x", 5, 5/60, "perf_counter"⟩ "" =
      Except.ok ⟨"x", 0, 0, DEFAULT_CLOCK_NAME⟩ := by
  refine ⟨rfl, rfl, rfl⟩

/-- C4 counterexample. The claim states that equality between Clocks with
incompatible clocks fails with a CompatibilityError. In the smarttimers
variant the equality operator instead returns False: at the concrete
incompatible pair below, with clock names time and monotonic whose
metadata differ, the operator returns the value false rather than
raising. -/
theorem C4_counterexample :
    isCompatible ⟨"a", 1, 1/60, "time"⟩ (PyVal.timer ⟨"b", 2, 2/60, "monotonic"⟩) = false ∧
    ST.eqOp ⟨"a", 1, 1/60, "time"⟩ (PyVal.timer ⟨"b", 2, 2/60, "monotonic"⟩) = false := by
  constructor
  · simp [isCompatible, getClockInfo]
  · simp [ST.eqOp, isCompatible, getClockInfo]

/-- C4 as amended. For every pair whose clocks are not compatible,
including when the second operand is not a Clock at all: addition,
subtraction, less than, and the derived less or equal, greater than and
greater or equal fail with a CompatibilityError in both variants, and
equality fails with a CompatibilityError in the old smarttimer variant;
in the smarttimers variant equality instead returns False. -/
theorem C4_incompatible_ops (a : Timer) (v : PyVal)
    (h : isCompatible a v = false) :
    ST.addOp a v = .error .compatibilityError ∧
    ST.subOp a v = .error .compatibilityError ∧
    ST.ltOp a v = .error .compatibilityError ∧
    ST.leOp a v = .error .compatibilityError ∧
    ST.gtOp a v = .error .compatibilityError ∧
    ST.geOp a v = .error .compatibilityError ∧
    ST.eqOp a v = false ∧
    Old.addOp a v = .error .compatibilityError ∧
    Old.subOp a v = .error .compatibilityError ∧
    Old.eqOp a v = .error .compatibilityError ∧
    Old.ltOp a v = .error .compatibilityError ∧
    Old.leOp a v = .error .compatibilityError ∧
    Old.gtOp a v = .error .compatibilityError ∧
    Old.geOp a v = .error .compatibilityError := by
  cases v <;>
    simp [ST.addOp, ST.subOp, ST.ltOp, ST.leOp, ST.gtOp, ST.geOp, ST.eqOp,
      Old.addOp, Old.subOp, Old.eqOp, Old.ltOp, Old.leOp, Old.gtOp, Old.geOp,
      h, bind, Except.bind]

/-- C4 witness at a concrete incompatible pair: the pair with clock names
time and monotonic, whose metadata differ, so addition raises, old
equality raises, and new equality returns False. -/
theorem C4_incompatible_ops_witness :
    ST.eqOp ⟨"a", 1, 1/60, "time"⟩ (PyVal.timer ⟨"b", 2, 2/60, "monotonic"⟩) = false ∧
    ST.addOp ⟨"a", 1, 1/60, "time"⟩ (PyVal.timer ⟨"b", 2, 2/60, "monotonic"⟩) =
      .error .compatibilityError ∧
    Old.eqOp ⟨"a", 1, 1/60, "time"⟩ (PyVal.timer ⟨"b", 2, 2/60, "monotonic"⟩) =
      .error .compatibilityError := by
  have h : isCompatible ⟨"a", 1, 1/60, "time"⟩
      (PyVal.timer ⟨"b", 2, 2/60, "monotonic"⟩) = false := by
    simp [isCompatible, getClockInfo]
  exact ⟨(C4_incompatible_ops _ _ h).2.2.2.2.2.2.1,
         (C4_incompatible_ops _ _ h).1,
         (C4_incompatible_ops _ _ h).2.2.2.2.2.2.2.2.2.1⟩

/-- C8 counterexample. The claim states that reset does the same as clear,
leaving the tracker name unchanged, while additionally restoring the
default clock name. The reset test in src refutes the name clause: it
creates a tracker named atimer, runs one tic toc pair, resets, and then
asserts that the name equals smarttimer, the default tracker name. On the
embedded replay of exactly that trace, the name after reset is not atimer
but the default name, the records and the stack are empty, and the clock
name is the default; on the same trace with clear in place of reset the
name atimer is preserved, exactly as the clear test asserts. -/
theorem C8_counterexample :
    resetTrace.name ≠ "atimer" ∧
    resetTrace.name = DEFAULT_TRACKER_NAME ∧
    resetTrace.records = [] ∧
    resetTrace.stack = [] ∧
    resetTrace.clock_name = DEFAULT_CLOCK_NAME ∧
    clearTrace.name = "atimer" := by
  refine ⟨?_, ?_, ?_, ?_, ?_, ?_⟩ <;>
    simp [resetTrace, clearTrace, tocD, SmartTimer.tic, SmartTimer.toc,
      SmartTimer.create, SmartTimer.reset, SmartTimer.clear, insertRec,
      DEFAULT_TRACKER_NAME, DEFAULT_CLOCK_NAME]

/-- C8 as amended. For every tracker state, clear empties the completed
record sequence and the pending stack while leaving both the tracker name
and the clock name unchanged, and reset does the same emptying while
restoring the default tracker name and the default clock name, as the
reset test in src requires; for a Clock, clear only zeroes the time
values, leaving label and clock name unchanged, while reset additionally
empties the label and restores the default clock name, with the time
zeroed. Clock reset goes through the embedded clock name setter and the
final clear, the shared body of both variants. -/
theorem C8_clear_reset (st : SmartTimer) (t : Timer) :
    (st.clear.records = [] ∧ st.clear.stack = [] ∧ st.clear.name = st.name ∧
      st.clear.clock_name = st.clock_name) ∧
    (st.reset.records = [] ∧ st.reset.stack = [] ∧
      st.reset.name = DEFAULT_TRACKER_NAME ∧
      st.reset.clock_name = DEFAULT_CLOCK_NAME) ∧
    (t.clear.seconds = 0 ∧ t.clear.minutes = 0 ∧ t.clear.label = t.label ∧
      t.clear.clock_name = t.clock_name) ∧
    ST.resetOp t = Except.ok ⟨"", 0, 0, DEFAULT_CLOCK_NAME⟩ := by
  refine ⟨⟨rfl, rfl, rfl, rfl⟩, ⟨rfl, rfl, rfl, rfl⟩, ⟨rfl, rfl, rfl, rfl⟩, rfl⟩

/-- C10. In the smarttimers variant, the equality operator between a Timer
and any value never raises: it is a total Bool valued function that
returns false when the other value is not a Timer or the two clocks are
incompatible, and otherwise returns whether the two seconds values are
equal. -/
theorem C10_eq_total (a : Timer) (v : PyVal) :
    (isCompatible a v = false → ST.eqOp a v = false) ∧
    (∀ b, v = PyVal.timer b → isCompatible a v = true →
      ST.eqOp a v = decide (a.seconds = b.seconds)) := by
  constructor
  · intro h
    simp [ST.eqOp, h]
  · rintro b rfl h
    simp [ST.eqOp, h]

/-- C10 witness: against an int the equality operator returns false, and
against a compatible Timer with equal seconds it returns the decision of
the seconds comparison. -/
theorem C10_eq_total_witness :
    ST.eqOp ⟨"a", 1, 1/60, "time"⟩ (PyVal.int 3) = false ∧
    ST.eqOp ⟨"a", 1, 1/60, "time"⟩ (PyVal.timer ⟨"b", 1, 1/60, "time"⟩) =
      decide ((1 : Rat) = 1) := by
  constructor
  · exact (C10_eq_total ⟨"a", 1, 1/60, "time"⟩ (PyVal.int 3)).1 rfl
  · exact (C10_eq_total ⟨"a", 1, 1/60, "time"⟩
      (PyVal.timer ⟨"b", 1, 1/60, "time"⟩)).2 ⟨"b", 1, 1/60, "time"⟩ rfl
      (by simp [isCompatible, getClockInfo])

theorem runSeq_walltime_aux (segs : List (String × Rat)) :
    ∀ (st : SmartTimer) (t : Rat),
    st.stack = [] →
    (∀ p ∈ st.records, p.1 < st.nextSeq) →
    ((st.lastToc = none ∧ st.firstTic = none ∧ st.records = []) ∨
      (∃ f, st.firstTic = some f ∧ st.lastToc = some t ∧
        t - f = st.sumSeconds)) →
    (runSeq st t segs).walltime = (runSeq st t segs).sumSeconds := by
  induction segs with
  | nil =>
      intro st t hstk hbnd hcase
      rcases hcase with ⟨h1, h2, h3⟩ | ⟨f, h1, h2, h3⟩
      · simp [runSeq, SmartTimer.walltime, h1, SmartTimer.sumSeconds,
          SmartTimer.secondsList, h3]
      · simp [runSeq, SmartTimer.walltime, h1, h2, h3]
  | cons p rest ih =>
      obtain ⟨lbl, d⟩ := p
      intro st t hstk hbnd hcase
      obtain ⟨nm, recs, stk, ft, lto, org, cn, ns⟩ := st
      simp only at hstk hbnd
      subst hstk
      rcases hcase with ⟨h1, h2, h3⟩ | ⟨f, h1, h2, h3⟩
      · simp only at h1 h2 h3
        subst h1; subst h2; subst h3
        simp only [runSeq]
        have hstep : tocD (SmartTimer.tic ⟨nm, [], [], none, none, org, cn, ns⟩ lbl t) (t + d) =
            ⟨nm, [(ns, ⟨lbl, t + d - t⟩)], [], some t, some (t + d), org, cn, ns + 1⟩ := by
          simp [tocD, SmartTimer.tic, SmartTimer.toc, insertRec]
        rw [hstep]
        apply ih
        · rfl
        · intro q hq; simp at hq; simp [hq]
        · right
          exact ⟨t, rfl, rfl, by simp [SmartTimer.sumSeconds, SmartTimer.secondsList]⟩
      · simp only at h1 h2 h3
        subst h1; subst h2
        simp only [runSeq]
        have hstep : tocD (SmartTimer.tic ⟨nm, recs, [], some f, some t, org, cn, ns⟩ lbl t) (t + d) =
            ⟨nm, recs ++ [(ns, ⟨lbl, t + d - t⟩)], [], some f, some (t + d), org, cn, ns + 1⟩ := by
          simp [tocD, SmartTimer.tic, SmartTimer.toc,
            insertRec_append recs ns _ hbnd]
        rw [hstep]
        apply ih
        · rfl
        · intro q hq
          simp at hq
          rcases hq with hq | hq
          · have := hbnd q hq; simp; omega
          · simp [hq]
        · right
          refine ⟨f, rfl, rfl, ?_⟩
          simp only [SmartTimer.sumSeconds, SmartTimer.secondsList] at h3 ⊢
          simp [List.map_append, List.sum_append, ← h3]
          ring

/-- C1 counterexample. The claim states that walltime returns the sum of
the seconds of all closed records regardless of nesting discipline. On the
nested scheme trace of the test file in src, with the outer interval A
spanning three halves and the inner interval B spanning one half, walltime
is three halves, the seconds of the record at index zero exactly as the
nested test asserts, while the sum of all closed records is two, so
walltime is not the sum. -/
theorem C1_counterexample :
    nestedTrace.walltime ≠ nestedTrace.sumSeconds ∧
    nestedTrace.secondsList = [3/2, 1/2] ∧
    nestedTrace.walltime = 3/2 ∧
    nestedTrace.labelsList = ["A", "B"] := by
  refine ⟨?_, ?_, ?_, ?_⟩ <;>
    simp [nestedTrace, tocD, SmartTimer.toc, SmartTimer.tic, SmartTimer.create,
      insertRec, removeLabel, SmartTimer.walltime, SmartTimer.sumSeconds,
      SmartTimer.secondsList, SmartTimer.labelsList] <;> norm_num

/-- C1 as amended. Walltime is the elapsed time between the first open and
the most recent close; under the sequential discipline with no gap between
a close and the next open it equals the sum of the seconds of all closed
records: for every gap free sequential trace, walltime of the final state
equals the sum over its closed records. -/
theorem C1_walltime_sequential_sum (name : String) (t0 : Rat)
    (segs : List (String × Rat)) :
    (runSeq (SmartTimer.create name t0) t0 segs).walltime =
      (runSeq (SmartTimer.create name t0) t0 segs).sumSeconds :=
  runSeq_walltime_aux segs (SmartTimer.create name t0) t0 rfl
    (by intro p hp; simp [SmartTimer.create] at hp)
    (Or.inl ⟨rfl, rfl, rfl⟩)

theorem cascade_model_check :
    cascadeTrace.labelsList = ["A", "B"] ∧
    cascadeTrace.secondsList = [1/2, 1] ∧
    cascadeTrace.walltime = 1 ∧
    cascadeTrace.stack = [] := by
  refine ⟨?_, ?_, ?_, ?_⟩ <;>
    simp [cascadeTrace, tocD, SmartTimer.toc, SmartTimer.tic, SmartTimer.create,
      insertRec, removeLabel, SmartTimer.walltime, SmartTimer.secondsList,
      SmartTimer.labelsList] <;> norm_num

/-- C2 as amended. For every tracker state: an unlabeled close pops the
top of the pending stack and fails with a StateError kind when the stack
is empty; a close with a non string label fails with a TypeError kind; a
close whose string label is absent from a non empty pending stack fails
with a KeyError kind, while on an empty stack it succeeds as a cascading
close; a close whose label is present removes that entry wherever it sits
in the stack; and every successful close completes exactly one record,
the record sequence being kept in opening order with cascade records
appended at close time. -/
theorem C2_close_semantics (st : SmartTimer) (now : Rat) (lbl : String) :
    SmartTimer.toc st TocKey.badKey now = .error .typeError ∧
    (st.stack = [] → SmartTimer.toc st TocKey.noKey now = .error .stateError) ∧
    (∀ l seq s rest, st.stack = (l, seq, s) :: rest →
      SmartTimer.toc st TocKey.noKey now =
        .ok { st with stack := rest,
                      records := insertRec st.records seq ⟨l, now - s⟩,
                      lastToc := some now }) ∧
    (removeLabel st.stack lbl = none → st.stack ≠ [] →
      SmartTimer.toc st (TocKey.strKey lbl) now = .error .keyError) ∧
    (∀ l seq s rest, removeLabel st.stack lbl = some ((l, seq, s), rest) →
      SmartTimer.toc st (TocKey.strKey lbl) now =
        .ok { st with stack := rest,
                      records := insertRec st.records seq ⟨l, now - s⟩,
                      lastToc := some now }) ∧
    (∀ key st1, SmartTimer.toc st key now = .ok st1 →
      st1.records.length = st.records.length + 1) := by
  refine ⟨rfl, ?_, ?_, ?_, ?_, ?_⟩
  · intro h
    simp [SmartTimer.toc, h]
  · intro l seq s rest h
    simp [SmartTimer.toc, h]
  · intro h1 h2
    rcases hs : st.stack with _ | ⟨e0, r1⟩
    · exact absurd hs h2
    · rw [hs] at h1
      simp [SmartTimer.toc, hs, h1]
  · intro l seq s rest h
    simp [SmartTimer.toc, h]
  · intro key st1 h
    cases key with
    | badKey => simp [SmartTimer.toc] at h
    | noKey =>
        rcases hs : st.stack with _ | ⟨⟨l0, seq0, s0⟩, r0⟩
        · simp [SmartTimer.toc, hs] at h
        · simp only [SmartTimer.toc, hs] at h
          rw [Except.ok.injEq] at h
          subst h
          simp [insertRec_length]
    | strKey s =>
        rcases hrl : removeLabel st.stack s with _ | ⟨⟨⟨l0, seq0, s0⟩, r0⟩⟩
        · rcases hs : st.stack with _ | ⟨e0, r1⟩
          · rw [hs] at hrl
            simp only [SmartTimer.toc, hs, hrl] at h
            rw [Except.ok.injEq] at h
            subst h
            simp [insertRec_length]
          · rw [hs] at hrl
            simp [SmartTimer.toc, hs, hrl] at h
        · simp only [SmartTimer.toc, hrl] at h
          rw [Except.ok.injEq] at h
          subst h
          simp [insertRec_length]

/-- C2 witness at concrete inputs: an unlabeled toc on a fresh tracker
raises the state error; a toc with a non string key raises the type
error; an unlabeled toc with label A pending pops it; a toc labeled B
with only A pending raises the key error; a toc labeled A with B pending
above A removes A from under the top; and the completed sequence grows by
exactly one record on a successful close. -/
theorem C2_close_semantics_witness :
    SmartTimer.toc c2s0 TocKey.noKey 1 = .error .stateError ∧
    SmartTimer.toc c2s0 TocKey.badKey 1 = .error .typeError ∧
    SmartTimer.toc c2s1 TocKey.noKey 1 =
      .ok { c2s1 with stack := [],
                      records := insertRec c2s1.records 0 ⟨"A", 1 - 0⟩,
                      lastToc := some 1 } ∧
    SmartTimer.toc c2s1 (TocKey.strKey "B") 1 = .error .keyError ∧
    SmartTimer.toc c2s2 (TocKey.strKey "A") 3 =
      .ok { c2s2 with stack := [("B", 1, 2)],
                      records := insertRec c2s2.records 0 ⟨"A", 3 - 0⟩,
                      lastToc := some 3 } ∧
    (insertRec c2s1.records 0 ⟨"A", 1 - 0⟩).length = c2s1.records.length + 1 :=
  ⟨(C2_close_semantics c2s0 1 "B").2.1 rfl,
   (C2_close_semantics c2s0 1 "B").1,
   (C2_close_semantics c2s1 1 "B").2.2.1 "A" 0 0 [] rfl,
   (C2_close_semantics c2s1 1 "B").2.2.2.1 (by decide) (by decide),
   (C2_close_semantics c2s2 3 "A").2.2.2.2.1 "A" 0 0 [("B", 1, 2)] (by decide),
   (C2_close_semantics c2s1 1 "B").2.2.2.2.2 TocKey.noKey _
     ((C2_close_semantics c2s1 1 "B").2.2.1 "A" 0 0 [] rfl)⟩

theorem all_entryOk_assocSet (d : TDict) (k v : Py)
    (hd : d.all entryOk = true) (h : entryOk (k, v) = true) :
    (assocSet d k v).all entryOk = true := by
  induction d with
  | nil => simp [assocSet, h]
  | cons p tl ih =>
      obtain ⟨k1, v1⟩ := p
      simp only [List.all_cons, Bool.and_eq_true] at hd
      by_cases hk : k1 = k
      · subst hk
        simp [assocSet, List.all_cons, h, hd.2]
      · simp [assocSet, hk, List.all_cons, hd.1, ih hd.2]

theorem all_entryOk_filter (d : TDict) (q : Py × Py → Bool)
    (hd : d.all entryOk = true) : (d.filter q).all entryOk = true := by
  induction d with
  | nil => simp
  | cons p tl ih =>
      simp only [List.all_cons, Bool.and_eq_true] at hd
      by_cases hq : q p
      · simp [List.filter_cons, hq, List.all_cons, hd.1, ih hd.2]
      · simp [List.filter_cons, hq, ih hd.2]

theorem setItem_inv (d : TDict) (k v : Py) (d1 : TDict)
    (hinv : registryInvB d = true) (hok : ST.setItem d k v = .ok d1) :
    registryInvB d1 = true := by
  cases k with
  | str s =>
      simp only [ST.setItem] at hok
      by_cases hs : s = ""
      · simp [hs] at hok
      · rw [if_neg hs] at hok
        by_cases hc : v.isCallable
        · rw [if_pos hc] at hok
          rw [Except.ok.injEq] at hok
          subst hok
          exact all_entryOk_assocSet d (.str s) v hinv (by simp [entryOk, hs, hc])
        · simp [hc] at hok
  | int n => simp [ST.setItem] at hok
  | func f => simp [ST.setItem] at hok

theorem updateItems_inv (items : List (Py × Py)) :
    ∀ (d d1 : TDict), registryInvB d = true →
      ST.updateItems d items = .ok d1 → registryInvB d1 = true := by
  induction items with
  | nil =>
      intro d d1 h hok
      simp only [ST.updateItems] at hok
      rw [Except.ok.injEq] at hok
      subst hok
      exact h
  | cons p tl ih =>
      obtain ⟨k, v⟩ := p
      intro d d1 h hok
      simp only [ST.updateItems, bind, Except.bind] at hok
      cases hset : ST.setItem d k v with
      | error e => rw [hset] at hok; simp at hok
      | ok dmid =>
          rw [hset] at hok
          exact ih dmid d1 (setItem_inv d k v dmid h hset) hok

theorem dictFind_assocSet (d : TDict) (k v : Py) :
    dictFind (assocSet d k v) k = some v := by
  induction d with
  | nil => simp [assocSet, dictFind]
  | cons p tl ih =>
      obtain ⟨k1, v1⟩ := p
      by_cases hk : k1 = k
      · subst hk
        simp [assocSet, dictFind]
      · have hbeq : (k1 == k) = false := by simp [hk]
        simp only [assocSet, if_neg hk, dictFind, List.find?, hbeq, cond_false]
        exact ih

theorem length_assocSet_mem (d : TDict) (k v : Py) (h : keyMem d k = true) :
    (assocSet d k v).length = d.length := by
  induction d with
  | nil => simp [keyMem] at h
  | cons p tl ih =>
      obtain ⟨k1, v1⟩ := p
      by_cases hk : k1 = k
      · subst hk
        simp [assocSet]
      · simp only [keyMem, List.any_cons, Bool.or_eq_true] at h
        rcases h with h | h
        · exact absurd (by simpa using h) hk
        · simp [assocSet, hk, ih (by simpa [keyMem] using h)]

/-- C5 counterexample. The claim states that every registry mutation in
both variants preserves the invariant that keys are non empty strings and
values are callable, and that assigning an empty string key fails. In the
old smarttimer variant, update delegates to the builtin dict update with
no per item validation, so updating with a non callable value succeeds
and breaks the invariant, and item assignment accepts the empty string
key, which also breaks the invariant. -/
theorem C5_counterexample :
    Old.updateRaw [] [(Py.str "x", Py.int 5)] = [(Py.str "x", Py.int 5)] ∧
    registryInvB [(Py.str "x", Py.int 5)] = false ∧
    Old.setItem [] (Py.str "") (Py.func "f") = .ok [(Py.str "", Py.func "f")] ∧
    registryInvB [(Py.str "", Py.func "f")] = false := ⟨rfl, rfl, rfl, rfl⟩

/-- C5 as amended. In the smarttimers variant the registry invariant
holds: item assignment, update and unregister preserve non empty string
keys and callable values; assignment with a non string key or an empty
string key fails with a KeyError kind and with a non callable value fails
with a ValueError kind; a successful assignment under an existing name
overwrites the previous entry, preserving the size; unregistering an
unknown name fails with a KeyError kind. In the old smarttimer variant
item assignment still rejects non string keys and non callable values,
but accepts the empty string key, and update bypasses validation
entirely. -/
theorem C5_registry_invariant :
    (∀ d k v d1, registryInvB d = true → ST.setItem d k v = .ok d1 →
      registryInvB d1 = true) ∧
    (∀ d items d1, registryInvB d = true → ST.updateItems d items = .ok d1 →
      registryInvB d1 = true) ∧
    (∀ d k d1, registryInvB d = true → ST.unregisterClock d k = .ok d1 →
      registryInvB d1 = true) ∧
    (∀ d v, ST.setItem d (Py.str "") v = .error .keyError) ∧
    (∀ d n v, ST.setItem d (Py.int n) v = .error .keyError) ∧
    (∀ d s v, v.isCallable = false → s ≠ "" →
      ST.setItem d (Py.str s) v = .error .valueError) ∧
    (∀ d s v d1, ST.setItem d (Py.str s) v = .ok d1 →
      dictFind d1 (Py.str s) = some v ∧
      (keyMem d (Py.str s) = true → d1.length = d.length)) ∧
    (∀ d k, keyMem d k = false → ST.unregisterClock d k = .error .keyError) ∧
    (∀ d n v, Old.setItem d (Py.int n) v = .error .keyError) ∧
    (∀ d s v, v.isCallable = false →
      Old.setItem d (Py.str s) v = .error .valueError) := by
  refine ⟨setItem_inv, fun d items => updateItems_inv items d, ?_, ?_, ?_, ?_, ?_, ?_, ?_, ?_⟩
  · intro d k d1 h hok
    simp only [ST.unregisterClock] at hok
    by_cases hm : keyMem d k
    · rw [if_pos hm] at hok
      rw [Except.ok.injEq] at hok
      subst hok
      exact all_entryOk_filter d _ h
    · simp [hm] at hok
  · intro d v
    rfl
  · intro d n v
    rfl
  · intro d s v hc hs
    simp [ST.setItem, hs, hc]
  · intro d s v d1 hok
    simp only [ST.setItem] at hok
    by_cases hs : s = ""
    · simp [hs] at hok
    · rw [if_neg hs] at hok
      by_cases hc : v.isCallable
      · rw [if_pos hc] at hok
        rw [Except.ok.injEq] at hok
        subst hok
        exact ⟨dictFind_assocSet d (Py.str s) v,
               fun hm => length_assocSet_mem d (Py.str s) v hm⟩
      · simp [hc] at hok
  · intro d k h
    simp [ST.unregisterClock, h]
  · intro d n v
    rfl
  · intro d s v hc
    simp [Old.setItem, hc]

/-- C5 witness at concrete registries: preservation through assignment,
update and unregister, the value error for a non callable value, the key
error for unregistering an unknown name, and overwriting under an
existing key. -/
theorem C5_registry_invariant_witness :
    registryInvB [(Py.str "clock", Py.func "g")] = true ∧
    registryInvB [(Py.str "a", Py.func "f")] = true ∧
    registryInvB ([] : TDict) = true ∧
    ST.setItem [] (Py.str "a") (Py.int 1) = .error .valueError ∧
    ST.unregisterClock [] (Py.str "z") = .error .keyError ∧
    dictFind [(Py.str "a", Py.func "g")] (Py.str "a") = some (Py.func "g") ∧
    ([(Py.str "a", Py.func "g")] : TDict).length = ([(Py.str "a", Py.func "f")] : TDict).length :=
  ⟨(C5_registry_invariant).1 [] (Py.str "clock") (Py.func "g") [(Py.str "clock", Py.func "g")] rfl rfl,
   (C5_registry_invariant).2.1 [] [(Py.str "a", Py.func "f")] [(Py.str "a", Py.func "f")] rfl rfl,
   (C5_registry_invariant).2.2.1 [(Py.str "a", Py.func "f")] (Py.str "a") [] rfl (by decide),
   (C5_registry_invariant).2.2.2.2.2.1 [] "a" (Py.int 1) rfl (by decide),
   (C5_registry_invariant).2.2.2.2.2.2.2.1 [] (Py.str "z") rfl,
   ((C5_registry_invariant).2.2.2.2.2.2.1 [(Py.str "a", Py.func "f")] "a" (Py.func "g") [(Py.str "a", Py.func "g")] rfl).1,
   ((C5_registry_invariant).2.2.2.2.2.2.1 [(Py.str "a", Py.func "f")] "a" (Py.func "g") [(Py.str "a", Py.func "g")] rfl).2 rfl⟩

theorem init_ok_inv (lbl : String) (s : Rat) (cn : String) (res : Timer)
    (h : Timer.init lbl s cn = .ok res) : TimerInv res := by
  simp only [Timer.init, setTimeChecked, bind, Except.bind] at h
  by_cases hs : s < 0
  · simp [hs] at h
  · rw [if_neg hs] at h
    cases hl : lookupClock (resolveName cn) with
    | none => rw [hl] at h; simp at h
    | some w =>
        rw [hl] at h
        rw [Except.ok.injEq] at h
        subst h
        exact ⟨le_of_not_lt hs, rfl⟩

/-- C6. Invariant on every Clock under the precondition that timing
functions return non negative readings: seconds stays non negative and
minutes always equals seconds over sixty, preserved by construction in
both variants, by recording a reading, by the arithmetic results, by
clear, and by reset; constructing with non negative seconds yields
minutes equal to seconds over sixty, and constructing with negative
seconds fails with a ValueError kind in both variants. Stated over exact
rationals, the model of Python floats. -/
theorem C6_clock_invariant (lbl cn : String) (s r : Rat) (t a b : Timer) :
    (0 ≤ s → (lookupClock (resolveName cn)).isSome →
      Timer.init lbl s cn = .ok ⟨lbl, s, s / 60, resolveName cn⟩) ∧
    (s < 0 → Timer.init lbl s cn = .error .valueError) ∧
    (s < 0 → Old.init lbl s cn = .error .valueError) ∧
    (0 ≤ s → (lookupClock (resolveName cn)).isSome →
      Old.init lbl s cn = .ok ⟨lbl, s, s / 60, resolveName cn⟩) ∧
    (0 ≤ r → ST.timeOp t r = .ok { t with seconds := r, minutes := r / 60 }) ∧
    (0 ≤ r → TimerInv (Old.timeOp t r)) ∧
    TimerInv t.clear ∧
    (∀ res, ST.addOp a (PyVal.timer b) = .ok res → TimerInv res) ∧
    (∀ res, ST.subOp a (PyVal.timer b) = .ok res → TimerInv res) ∧
    (∀ res, ST.resetOp t = .ok res → TimerInv res) := by
  refine ⟨?_, ?_, ?_, ?_, ?_, ?_, ⟨le_refl 0, by simp [Timer.clear]⟩, ?_, ?_, ?_⟩
  · intro h0 hl
    obtain ⟨w, hw⟩ := Option.isSome_iff_exists.mp hl
    simp only [Timer.init, setTimeChecked, bind, Except.bind]
    rw [if_neg (not_lt.mpr h0), hw]
  · intro hneg
    simp [Timer.init, setTimeChecked, hneg, bind, Except.bind]
  · intro hneg
    simp [Old.init, hneg]
  · intro h0 hl
    obtain ⟨w, hw⟩ := Option.isSome_iff_exists.mp hl
    simp only [Old.init]
    rw [if_neg (not_lt.mpr h0), hw]
  · intro h0
    simp [ST.timeOp, setTimeChecked, not_lt.mpr h0]
  · intro h0
    exact ⟨h0, rfl⟩
  · intro res h
    simp only [ST.addOp] at h
    by_cases hc : isCompatible a (PyVal.timer b)
    · rw [if_pos hc] at h
      exact init_ok_inv _ _ _ _ h
    · simp [hc] at h
  · intro res h
    simp only [ST.subOp] at h
    by_cases hc : isCompatible a (PyVal.timer b)
    · rw [if_pos hc] at h
      exact init_ok_inv _ _ _ _ h
    · simp [hc] at h
  · intro res h
    have hr : ST.resetOp t = .ok ⟨"", 0, 0, DEFAULT_CLOCK_NAME⟩ := rfl
    rw [hr, Except.ok.injEq] at h
    subst h
    exact ⟨le_refl 0, by norm_num⟩

/-- C6 witness at concrete values: construction with seconds seven and
with seconds minus three, a reading of four, clearing, the results of
addition and subtraction of two compatible timers, and reset. -/
theorem C6_clock_invariant_witness :
    Timer.init "w" 7 "time" = .ok ⟨"w", 7, 7 / 60, resolveName "time"⟩ ∧
    Timer.init "w" (-3) "time" = .error .valueError ∧
    Old.init "w" (-3) "time" = .error .valueError ∧
    Old.init "w" 7 "time" = .ok ⟨"w", 7, 7 / 60, resolveName "time"⟩ ∧
    ST.timeOp ⟨"q", 3, 3/60, "time"⟩ 4 =
      .ok { (⟨"q", 3, 3/60, "time"⟩ : Timer) with seconds := 4, minutes := 4 / 60 } ∧
    TimerInv (Old.timeOp ⟨"q", 3, 3/60, "time"⟩ 4) ∧
    TimerInv (Timer.clear ⟨"q", 3, 3/60, "time"⟩) ∧
    TimerInv ⟨"x" ++ "+" ++ "y", 5 + 2, (5 + 2) / 60, "time"⟩ ∧
    TimerInv ⟨"x" ++ "-" ++ "y", |(5 : Rat) - 2|, |(5 : Rat) - 2| / 60, "time"⟩ ∧
    TimerInv ⟨"", 0, 0, DEFAULT_CLOCK_NAME⟩ :=
  ⟨(C6_clock_invariant "w" "time" 7 4 ⟨"q", 3, 3/60, "time"⟩ ⟨"x", 5, 5/60, "time"⟩
      ⟨"y", 2, 2/60, "time"⟩).1 (by norm_num) rfl,
   (C6_clock_invariant "w" "time" (-3) 4 ⟨"q", 3, 3/60, "time"⟩ ⟨"x", 5, 5/60, "time"⟩
      ⟨"y", 2, 2/60, "time"⟩).2.1 (by norm_num),
   (C6_clock_invariant "w" "time" (-3) 4 ⟨"q", 3, 3/60, "time"⟩ ⟨"x", 5, 5/60, "time"⟩
      ⟨"y", 2, 2/60, "time"⟩).2.2.1 (by norm_num),
   (C6_clock_invariant "w" "time" 7 4 ⟨"q", 3, 3/60, "time"⟩ ⟨"x", 5, 5/60, "time"⟩
      ⟨"y", 2, 2/60, "time"⟩).2.2.2.1 (by norm_num) rfl,
   (C6_clock_invariant "w" "time" 7 4 ⟨"q", 3, 3/60, "time"⟩ ⟨"x", 5, 5/60, "time"⟩
      ⟨"y", 2, 2/60, "time"⟩).2.2.2.2.1 (by norm_num),
   (C6_clock_invariant "w" "time" 7 4 ⟨"q", 3, 3/60, "time"⟩ ⟨"x", 5, 5/60, "time"⟩
      ⟨"y", 2, 2/60, "time"⟩).2.2.2.2.2.1 (by norm_num),
   (C6_clock_invariant "w" "time" 7 4 ⟨"q", 3, 3/60, "time"⟩ ⟨"x", 5, 5/60, "time"⟩
      ⟨"y", 2, 2/60, "time"⟩).2.2.2.2.2.2.1,
   (C6_clock_invariant "w" "time" 7 4 ⟨"q", 3, 3/60, "time"⟩ ⟨"x", 5, 5/60, "time"⟩
      ⟨"y", 2, 2/60, "time"⟩).2.2.2.2.2.2.2.1 _
     (by norm_num [ST.addOp, isCompatible, getClockInfo, Timer.init, setTimeChecked,
        bind, Except.bind, joinFiltered, resolveName, lookupClock, defaultClocks]
        <;> simp),
   (C6_clock_invariant "w" "time" 7 4 ⟨"q", 3, 3/60, "time"⟩ ⟨"x", 5, 5/60, "time"⟩
      ⟨"y", 2, 2/60, "time"⟩).2.2.2.2.2.2.2.2.1 _
     (by norm_num [ST.subOp, isCompatible, getClockInfo, Timer.init, setTimeChecked,
        bind, Except.bind, joinFiltered, resolveName, lookupClock, defaultClocks]
        <;> simp),
   (C6_clock_invariant "w" "time" 7 4 ⟨"q", 3, 3/60, "time"⟩ ⟨"x", 5, 5/60, "time"⟩
      ⟨"y", 2, 2/60, "time"⟩).2.2.2.2.2.2.2.2.2 _ rfl⟩

/-- C7. For every pair of compatible Clock values, subtraction produces a
Clock whose seconds is the absolute difference of the two seconds values
and whose label is the two operand labels joined with a dash, empty
labels omitted from the join; addition likewise with a plus sign and the
sum of seconds. The resulting minutes and clock name follow the
constructor: seconds over sixty and the left operand clock name. -/
theorem C7_sub_add_result (a b : Timer)
    (hc : isCompatible a (PyVal.timer b) = true)
    (hn : a.clock_name ≠ "") (hr : (lookupClock a.clock_name).isSome)
    (ha : 0 ≤ a.seconds) (hb : 0 ≤ b.seconds) :
    ST.subOp a (PyVal.timer b) =
      .ok ⟨(if a.label = "" then b.label else if b.label = "" then a.label
            else a.label ++ "-" ++ b.label),
           |a.seconds - b.seconds|, |a.seconds - b.seconds| / 60, a.clock_name⟩ ∧
    ST.addOp a (PyVal.timer b) =
      .ok ⟨(if a.label = "" then b.label else if b.label = "" then a.label
            else a.label ++ "+" ++ b.label),
           a.seconds + b.seconds, (a.seconds + b.seconds) / 60, a.clock_name⟩ := by
  obtain ⟨w, hw⟩ := Option.isSome_iff_exists.mp hr
  constructor
  · simp only [ST.subOp, hc, if_true, Timer.init, setTimeChecked, bind, Except.bind]
    rw [if_neg (not_lt.mpr (abs_nonneg _))]
    simp only [resolveName, if_neg hn, hw]
    simp [joinFiltered]
  · simp only [ST.addOp, hc, if_true, Timer.init, setTimeChecked, bind, Except.bind]
    rw [if_neg (not_lt.mpr (add_nonneg ha hb))]
    simp only [resolveName, if_neg hn, hw]
    simp [joinFiltered]

/-- C7 witness at a concrete compatible pair with labels x and y, five and
two seconds, both on the clock named time. -/
theorem C7_sub_add_result_witness :
    ST.subOp ⟨"x", 5, 5/60, "time"⟩ (PyVal.timer ⟨"y", 2, 2/60, "time"⟩) =
      .ok ⟨"x" ++ "-" ++ "y", |(5 : Rat) - 2|, |(5 : Rat) - 2| / 60, "time"⟩ ∧
    ST.addOp ⟨"x", 5, 5/60, "time"⟩ (PyVal.timer ⟨"y", 2, 2/60, "time"⟩) =
      .ok ⟨"x" ++ "+" ++ "y", (5 : Rat) + 2, ((5 : Rat) + 2) / 60, "time"⟩ := by
  have h := C7_sub_add_result ⟨"x", 5, 5/60, "time"⟩ ⟨"y", 2, 2/60, "time"⟩
    (by simp [isCompatible, getClockInfo]) (by decide) (by decide)
    (by norm_num) (by norm_num)
  simpa using h

/-- C9. Constructing a Clock by copying another Clock through the timer
keyword argument yields an instance whose seconds, minutes and clock name
equal those of the source, while the label is the explicitly passed label
argument, not the label of the source. The hypotheses state that the
source is a well formed instance: non negative seconds, derived minutes,
and a registered, non empty clock name. -/
theorem C9_copy_init (lbl : String) (src : Timer)
    (h1 : 0 ≤ src.seconds) (h2 : src.minutes = src.seconds / 60)
    (h3 : src.clock_name ≠ "") (h4 : (lookupClock src.clock_name).isSome) :
    Timer.initFromTimer lbl src = .ok ⟨lbl, src.seconds, src.minutes, src.clock_name⟩ := by
  obtain ⟨w, hw⟩ := Option.isSome_iff_exists.mp h4
  simp only [Timer.initFromTimer, setTimeChecked, bind, Except.bind]
  rw [if_neg (not_lt.mpr h1)]
  simp only [resolveName, if_neg h3, hw]
  simp [h2]

/-- C9 witness: copying a source timer with nine seconds on the monotonic
clock into a new instance labeled fresh. -/
theorem C9_copy_init_witness :
    Timer.initFromTimer "fresh" ⟨"source", 9, 9/60, "monotonic"⟩ =
      .ok ⟨"fresh", 9, 9/60, "monotonic"⟩ :=
  C9_copy_init "fresh" ⟨"source", 9, 9/60, "monotonic"⟩ (by norm_num) (by norm_num)
    (by decide) rfl

/-- C2 counterexample. The claim states that a labeled close fails with a
KeyError kind whenever the label is absent from the pending stack, and
that records are appended in closing order. On the cascade scheme trace
of the test file in src, the close labeled B is issued on an empty
pending stack, from which B is certainly absent, yet it succeeds,
returning the cascade state rather than a KeyError. On the nested scheme
trace the closes occur in the order B then A, yet the exposed label
sequence is A then B, the opening order, so the sequence is not kept in
closing order. -/
theorem C2_counterexample :
    SmartTimer.toc (tocD (SmartTimer.tic
        (SmartTimer.create "smarttimer" 0) "A" 0) (1/2)) (TocKey.strKey "B") 1 =
      Except.ok cascadeTrace ∧
    cascadeTrace.labelsList = ["A", "B"] ∧
    nestedTrace.labelsList = ["A", "B"] := by
  refine ⟨?_, ?_, ?_⟩ <;>
    simp [cascadeTrace, nestedTrace, tocD, SmartTimer.toc, SmartTimer.tic,
      SmartTimer.create, insertRec, removeLabel, SmartTimer.labelsList]
